import Mathlib

/-!
Shallow embedding of the LLM-Router core: the intent-routing and escalation
state machine (router.py) together with its two dispatch handlers
(agents/faq_agent.py, agents/order_agent.py) and the shared response
contracts (dtos.py).

Conventions of the embedding:
- Python dicts become association lists over String keys; lookup, update and
  deletion mirror dict.get, item assignment and del.
- The external text-generation capability is a function parameter; a call
  that raises is an Except.error result.
- Python float confidences become rationals; the fixed threshold 0.7 becomes
  7/10.
- Python truthiness of an optional string (None or empty string is falsy) is
  made explicit as pyTruthyStr.
- The regex search for ORD- followed by five digits is embedded as a scan
  over positions: at each position the nine-character window is tested for
  the exact shape.
-/

/-! ### Data-transfer contracts (dtos.py) -/

inductive Intent where
  | faq
  | order_status
  | unclear
deriving DecidableEq, Repr

structure RouterResponse where
  intent : Intent
  confidence : ℚ
  entities : List (String × String)
  reasoning : String
deriving DecidableEq, Repr

structure ItemRec where
  name : Option String
deriving DecidableEq, Repr

inductive Items where
  | recs (l : List ItemRec)
  | strs (l : List String)
deriving DecidableEq, Repr

structure OrderRecord where
  order_id : String
  status : String
  items : Option Items
  tracking : Option String
  delivery_date : Option String
deriving DecidableEq, Repr

/-- The heterogeneous data payload of an agent response: the FAQ agent
returns a one-entry mapping with key topic, the order agent returns the
full order record. -/
inductive AgentData where
  | topic (name : String)
  | order (rec : OrderRecord)
deriving DecidableEq, Repr

structure AgentResponse where
  success : Bool
  message : String
  data : Option AgentData := none
  needs_clarification : Bool := false
deriving DecidableEq, Repr

structure FinalResponse where
  query : String
  intent : Intent
  confidence : ℚ
  response : String
  escalated : Bool := false
deriving DecidableEq, Repr

/-! ### Python dict and string primitives -/

/-- dict.get: first association for the key, if any. -/
def dictGet {α : Type} (d : List (String × α)) (k : String) : Option α :=
  (d.find? (fun p => p.1 == k)).map (fun p => p.2)

/-- dict item assignment: replace the entry for the key when present,
append it otherwise. -/
def dictSet {α : Type} (d : List (String × α)) (k : String) (v : α) :
    List (String × α) :=
  if (d.find? (fun p => p.1 == k)).isSome then
    d.map (fun p => if p.1 = k then (k, v) else p)
  else d ++ [(k, v)]

/-- del d[k]: remove the entry for the key. -/
def dictErase {α : Type} (d : List (String × α)) (k : String) :
    List (String × α) :=
  d.filter (fun p => p.1 ≠ k)

/-- Python truthiness of an optional string: None and the empty string are
falsy. -/
def pyTruthyStr : Option String → Bool
  | none => false
  | some s => !(s == "")

/-- str.lower, character by character. -/
def strLower (s : String) : String := String.mk (s.data.map Char.toLower)

/-- str.upper, character by character. -/
def strUpper (s : String) : String := String.mk (s.data.map Char.toUpper)

/-- Does the pattern occur starting at the head of the list? -/
def listHasPrefixChars : List Char → List Char → Bool
  | _, [] => true
  | [], _ :: _ => false
  | c :: cs, p :: ps => c == p && listHasPrefixChars cs ps

/-- Does the pattern occur anywhere in the list? This is the substring
containment test of the Python in operator on strings. -/
def listOccurs (pat : List Char) : List Char → Bool
  | [] => listHasPrefixChars [] pat
  | c :: rest => listHasPrefixChars (c :: rest) pat || listOccurs pat rest

/-- Python substring containment: pat in s. -/
def strContains (s pat : String) : Bool :=
  listOccurs pat.data s.data

/-! ### FAQ agent (agents/faq_agent.py) -/

structure FAQContent where
  keywords : List String
  answer : String
deriving DecidableEq, Repr

/-- Score of one topic: the count of its keywords occurring as substrings of
the lower-cased query. -/
def faqScore (query_lower : String) (content : FAQContent) : Nat :=
  (content.keywords.filter (fun kw => strContains query_lower kw)).length

/-- State carried through the matching loop: the best content and score so
far, and the loop variable topic, which after the loop holds the last key
iterated. -/
structure FAQBestState where
  best_match : Option FAQContent
  best_score : Nat
  last_topic : String
deriving DecidableEq, Repr

/-- The matching loop of FAQAgent.handle: track the content with the
strictly highest score; the loop variable topic always advances. -/
def faqLoop (query_lower : String) :
    List (String × FAQContent) → FAQBestState → FAQBestState
  | [], st => st
  | (topic, content) :: rest, st =>
      let score := faqScore query_lower content
      let st1 :=
        if score > st.best_score then
          ⟨some content, score, topic⟩
        else
          { st with last_topic := topic }
      faqLoop query_lower rest st1

/-- The generation capability: prompt and system string in, either a reply
or a raised error. -/
def GenFn : Type := String → String → Except Unit String

def faqRefineSystem : String :=
  "You are a friendly customer service bot. Convert the factual answer into a natural, conversational response. Return ONLY the final response - no options, no variations, just one single answer."

def faqRefinePrompt (query answer : String) : String :=
  "Customer asked: \"" ++ query ++ "\"\n\n            Factual answer: " ++ answer ++
  "\n\n            Rewrite this as a single, friendly response. Give ONLY ONE response, nothing else:"

/-- FAQAgent._refine: best-effort rewrite; any failure falls back to the
unrewritten answer. -/
def faqRefine (gen : GenFn) (query answer : String) : String :=
  match gen (faqRefinePrompt query answer) faqRefineSystem with
  | .ok refined => refined.trim.trim
  | .error _ => answer

def faqNoMatchMsg : String :=
  "I don\x27t have information about that. I can help with: store hours, returns, shipping, payment, or contact info."

/-- FAQAgent.handle. -/
def faqHandle (knowledge_base : List (String × FAQContent)) (llm : Option GenFn)
    (query : String) : AgentResponse :=
  let query_lower := strLower query
  let st := faqLoop query_lower knowledge_base ⟨none, 0, ""⟩
  match st.best_match with
  | some content =>
      let answer := content.answer
      let answer :=
        match llm with
        | some gen => faqRefine gen query answer
        | none => answer
      { success := true, message := answer, data := some (.topic st.last_topic) }
  | none =>
      { success := false, message := faqNoMatchMsg, needs_clarification := false }

/-! ### Order agent (agents/order_agent.py) -/

/-- Exact shape of an order identifier: the literal ORD- followed by exactly
five decimal digits. -/
def exactOrdId (m : List Char) : Bool :=
  match m with
  | c1 :: c2 :: c3 :: c4 :: ds =>
      c1 == 'O' && c2 == 'R' && c3 == 'D' && c4 == '-' &&
        ds.length == 5 && ds.all (fun c => c.isDigit)
  | _ => false

/-- The regex test at one position: does the nine-character window here have
the exact order-id shape? -/
def matchOrdAt (l : List Char) : Option (List Char) :=
  let m := l.take 9
  if exactOrdId m then some m else none

/-- re.search: scan positions left to right, return the first match. -/
def searchOrdList : List Char → Option (List Char)
  | [] => none
  | c :: rest =>
      match matchOrdAt (c :: rest) with
      | some m => some m
      | none => searchOrdList rest

/-- OrderAgent._extract_order_id: search the upper-cased query for the
pattern ORD- followed by five digits, first occurrence. -/
def extractOrderId (query : String) : Option String :=
  (searchOrdList (strUpper query).data).map (fun l => String.mk l)

/-- The comma join of item names in OrderAgent._format_order: name fields
for structured item records, the strings themselves for plain strings,
the fixed fallback when the list is empty or absent. -/
def orderItemsStr (items : Option Items) : String :=
  match items with
  | some (Items.recs l) =>
      if l.length > 0 then String.intercalate ", " (l.map (fun it => it.name.getD ""))
      else "your items"
  | some (Items.strs l) =>
      if l.length > 0 then String.intercalate ", " l
      else "your items"
  | none => "your items"

/-- OrderAgent._format_order. -/
def formatOrder (o : OrderRecord) : String :=
  let items_str := orderItemsStr o.items
  let msg := "Order " ++ o.order_id ++ " (" ++ items_str ++ ") is " ++ o.status ++ "."
  let msg :=
    if pyTruthyStr o.tracking then msg ++ " Tracking: " ++ o.tracking.getD "" ++ "."
    else msg
  let msg :=
    if pyTruthyStr o.delivery_date then
      msg ++ " Expected delivery: " ++ o.delivery_date.getD "" ++ "."
    else msg
  msg

def orderRefineSystem : String :=
  "You are a friendly customer service bot. Convert the order status into a natural, conversational response. Return ONLY the final response - no options, no variations, just one single answer."

def orderRefinePrompt (query message : String) : String :=
  "Customer asked: \"" ++ query ++ "\"\n\n            Order status: " ++ message ++
  "\n\n            Rewrite this as a single, friendly response. Give ONLY ONE response, nothing else:"

/-- OrderAgent._refine: best-effort rewrite; any failure falls back to the
unrewritten message. -/
def orderRefine (gen : GenFn) (query message : String) : String :=
  match gen (orderRefinePrompt query message) orderRefineSystem with
  | .ok refined => refined.trim.trim
  | .error _ => message

def orderAskIdMsg : String :=
  "Please provide your order ID (format: ORD-12345)."

def orderNotFoundMsg (order_id : String) : String :=
  "Order " ++ order_id ++ " not found. Please verify your order number or contact support@store.com."

/-- OrderAgent.handle. -/
def orderHandle (orders : List (String × OrderRecord)) (llm : Option GenFn)
    (query : String) (order_id_hint : Option String) : AgentResponse :=
  let oid :=
    if pyTruthyStr order_id_hint then order_id_hint else extractOrderId query
  if pyTruthyStr oid then
    let order_id := oid.getD ""
    match dictGet orders order_id with
    | none =>
        { success := false, message := orderNotFoundMsg order_id }
    | some order =>
        let message := formatOrder order
        let message :=
          match llm with
          | some gen => orderRefine gen query message
          | none => message
        { success := true, message := message, data := some (.order order) }
  else
    { success := false, message := orderAskIdMsg, needs_clarification := true }

/-! ### Router (router.py) -/

abbrev SessionMap := List (String × Nat)

def clarifyMsg : String :=
  "Could you clarify? Are you asking about:\n• Store policies (hours, returns, shipping)?\n• Order status (provide order ID: ORD-XXXXX)?"

def escalateMsg : String :=
  "Let me connect you with support:\n• Email: support@store.com\n• Phone: 1-800-SHOP-NOW"

/-- LLMRouter._escalate. -/
def escalate (query : String) : FinalResponse :=
  { query := query, intent := .unclear, confidence := 0,
    response := escalateMsg, escalated := true }

/-- LLMRouter._handle_unclear: first occurrence sets the counter to 1 and
asks for clarification; any later occurrence escalates and leaves the
counter unchanged. -/
def handleUnclear (query : String) (classification : RouterResponse)
    (session_id : String) (unclear_count : SessionMap) :
    FinalResponse × SessionMap :=
  let count := (dictGet unclear_count session_id).getD 0
  if count = 0 then
    ({ query := query, intent := .unclear, confidence := classification.confidence,
       response := clarifyMsg, escalated := false },
     dictSet unclear_count session_id 1)
  else
    (escalate query, unclear_count)

def faqFallbackMsg : String :=
  "I don\x27t have that info. I can help with: hours, returns, shipping, payment, contact."

/-- Step 4 of LLMRouter.route: normalize the agent response into a
FinalResponse. -/
def handleAgentResponse (query : String) (classification : RouterResponse)
    (agent_response : AgentResponse) : FinalResponse :=
  if agent_response.needs_clarification then
    { query := query, intent := classification.intent,
      confidence := classification.confidence,
      response := agent_response.message, escalated := false }
  else if agent_response.success = false then
    let msg :=
      if classification.intent = Intent.faq then faqFallbackMsg
      else agent_response.message
    { query := query, intent := classification.intent,
      confidence := classification.confidence, response := msg, escalated := false }
  else
    { query := query, intent := classification.intent,
      confidence := classification.confidence,
      response := agent_response.message, escalated := false }

/-- LLMRouter.route. The classification capability call is passed as its
result: an error value when the call raised. The two agents are passed as
the handle functions the router holds. The session map is explicit state:
the result pairs the FinalResponse with the map after the call. -/
def route (classification_result : Except Unit RouterResponse)
    (faq_handle : String → AgentResponse)
    (order_handle : String → Option String → AgentResponse)
    (query : String) (session_id : String) (unclear_count : SessionMap) :
    FinalResponse × SessionMap :=
  match classification_result with
  | .error _ => (escalate query, unclear_count)
  | .ok classification =>
      if classification.intent = Intent.unclear ∨
          classification.confidence < 7 / 10 then
        handleUnclear query classification session_id unclear_count
      else if classification.intent = Intent.faq then
        (handleAgentResponse query classification (faq_handle query), unclear_count)
      else if classification.intent = Intent.order_status then
        (handleAgentResponse query classification
          (order_handle query (dictGet classification.entities "order_id")),
         unclear_count)
      else
        (escalate query, unclear_count)

/-- LLMRouter.reset_session. -/
def resetSession (unclear_count : SessionMap) (session_id : String) : SessionMap :=
  dictErase unclear_count session_id

/-! ### Event traces over the router state -/

/-- One external call on a router instance, with the classification result
and the handlers that call would use. -/
inductive RouterEvent where
  | routeEv (classification_result : Except Unit RouterResponse)
      (faq_handle : String → AgentResponse)
      (order_handle : String → Option String → AgentResponse)
      (query : String) (session_id : String)
  | resetEv (session_id : String)

def stepEvent (st : SessionMap) : RouterEvent → SessionMap
  | .routeEv cr f g q sid => (route cr f g q sid st).2
  | .resetEv sid => resetSession st sid

/-- The session map after a sequence of calls starting from the empty map. -/
def runEvents (evs : List RouterEvent) : SessionMap :=
  evs.foldl stepEvent []

/-! ### Helper lemmas: strings -/

theorem strMk_data (l : List Char) : (String.mk l).data = l := rfl

theorem strAppend_data (a b : String) : (a ++ b).data = a.data ++ b.data := by
  cases a; cases b; rfl

theorem listHasPrefixChars_self (p r : List Char) :
    listHasPrefixChars (p ++ r) p = true := by
  induction p with
  | nil => simp [listHasPrefixChars]
  | cons c cs ih => simp [listHasPrefixChars, ih]

theorem listOccurs_of_leading (p r : List Char) : listOccurs p (p ++ r) = true := by
  cases p with
  | nil =>
    cases r with
    | nil => rfl
    | cons c rest => simp [listOccurs, listHasPrefixChars]
  | cons c cs =>
    have h := listHasPrefixChars_self (c :: cs) r
    simp only [List.cons_append] at h
    simp [listOccurs, h]

theorem listOccurs_cons (pat : List Char) (c : Char) (l : List Char)
    (h : listOccurs pat l = true) : listOccurs pat (c :: l) = true := by
  simp [listOccurs, h]

theorem listOccurs_append_left (pat x l : List Char)
    (h : listOccurs pat l = true) : listOccurs pat (x ++ l) = true := by
  induction x with
  | nil => simpa using h
  | cons c cs ih => simpa using listOccurs_cons pat c (cs ++ l) ih

/-! ### Helper lemmas: dict operations -/

theorem find?_map_replace {α : Type} (d : List (String × α)) (k : String) (v : α)
    (h : (d.find? (fun p => p.1 == k)).isSome) :
    (d.map (fun p => if p.1 = k then (k, v) else p)).find? (fun p => p.1 == k) =
      some (k, v) := by
  induction d with
  | nil => simp at h
  | cons p rest ih =>
    by_cases hp : p.1 = k
    · have hb : ((k : String) == k) = true := by simp
      simp only [List.map_cons, if_pos hp, List.find?, hb]
    · have hb : (p.1 == k) = false := by simp [hp]
      simp only [List.find?, hb] at h
      simp only [List.map_cons, if_neg hp, List.find?, hb]
      exact ih h

theorem find?_append_of_none {α : Type} (d₁ d₂ : List (String × α))
    (pr : String × α → Bool) (h : d₁.find? pr = none) :
    (d₁ ++ d₂).find? pr = d₂.find? pr := by
  induction d₁ with
  | nil => rfl
  | cons p rest ih =>
    rcases hf : pr p with _ | _
    · rw [List.cons_append]
      simp only [List.find?, hf] at h ⊢
      exact ih h
    · simp only [List.find?, hf] at h
      exact absurd h (by simp)

theorem dictGet_dictSet_self {α : Type} (d : List (String × α)) (k : String) (v : α) :
    dictGet (dictSet d k v) k = some v := by
  unfold dictSet
  by_cases hs : (d.find? (fun p => p.1 == k)).isSome
  · rw [if_pos hs]
    unfold dictGet
    rw [find?_map_replace d k v hs]
    rfl
  · rw [if_neg hs]
    unfold dictGet
    have hn : d.find? (fun p => p.1 == k) = none := by
      rcases ho : d.find? (fun p => p.1 == k) with _ | p
      · exact ho
      · exact absurd (by simp [ho]) hs
    rw [find?_append_of_none d [(k, v)] _ hn]
    simp [List.find?]

theorem dictGet_dictErase_self {α : Type} (d : List (String × α)) (k : String) :
    dictGet (dictErase d k) k = none := by
  unfold dictGet dictErase
  induction d with
  | nil => rfl
  | cons p rest ih =>
    by_cases hp : p.1 = k
    · have hd : (decide (p.1 ≠ k)) = false := by simp [hp]
      simp only [List.filter, hd]
      exact ih
    · have hd : (decide (p.1 ≠ k)) = true := by simp [hp]
      have hb : (p.1 == k) = false := by simp [hp]
      simp only [List.filter, hd, List.find?, hb]
      exact ih

theorem dictErase_idem {α : Type} (d : List (String × α)) (k : String) :
    dictErase (dictErase d k) k = dictErase d k := by
  unfold dictErase
  induction d with
  | nil => rfl
  | cons p rest ih =>
    by_cases hp : p.1 = k
    · have hd : (decide (p.1 ≠ k)) = false := by simp [hp]
      simp only [List.filter, hd]
      exact ih
    · have hd : (decide (p.1 ≠ k)) = true := by simp [hp]
      simp only [List.filter, hd]
      rw [ih]

theorem dictErase_of_get_none {α : Type} (d : List (String × α)) (k : String)
    (h : dictGet d k = none) : dictErase d k = d := by
  unfold dictGet at h
  unfold dictErase
  induction d with
  | nil => rfl
  | cons p rest ih =>
    have hb : (p.1 == k) = false := by
      rcases hf : (p.1 == k) with _ | _
      · rfl
      · simp only [List.find?, hf] at h
        exact absurd h (by simp)
    simp only [List.find?, hb] at h
    have hd : (decide (p.1 ≠ k)) = true := by simpa using hb
    simp only [List.filter, hd]
    rw [ih h]

theorem mem_dictSet_cases {α : Type} (d : List (String × α)) (k : String) (v : α)
    (p : String × α) (hp : p ∈ dictSet d k v) : p = (k, v) ∨ p ∈ d := by
  unfold dictSet at hp
  split at hp
  · rcases List.mem_map.1 hp with ⟨q, hq, hqe⟩
    by_cases h : q.1 = k
    · left; rw [if_pos h] at hqe; exact hqe.symm
    · right; rw [if_neg h] at hqe; exact hqe ▸ hq
  · rcases List.mem_append.1 hp with h | h
    · right; exact h
    · left; simpa using h

/-! ### Helper lemmas: order-id search -/

theorem exactOrdId_shape (m : List Char) (h : exactOrdId m = true) :
    ∃ ds : List Char, m = 'O' :: 'R' :: 'D' :: '-' :: ds ∧ ds.length = 5 ∧
      ds.all (fun c => c.isDigit) = true := by
  rcases m with _ | ⟨c1, _ | ⟨c2, _ | ⟨c3, _ | ⟨c4, ds⟩⟩⟩⟩ <;>
    simp [exactOrdId] at h
  refine ⟨ds, ?_, ?_, ?_⟩ <;> simp_all

theorem matchOrdAt_some (l m : List Char) (h : matchOrdAt l = some m) :
    exactOrdId (l.take 9) = true ∧ m = l.take 9 := by
  unfold matchOrdAt at h
  by_cases he : exactOrdId (l.take 9) = true
  · rw [if_pos he] at h
    exact ⟨he, (Option.some.injEq _ _ ▸ h).symm⟩
  · rw [if_neg he] at h
    exact absurd h (by simp)

theorem matchOrdAt_none (l : List Char) (h : matchOrdAt l = none) :
    exactOrdId (l.take 9) = false := by
  unfold matchOrdAt at h
  by_cases he : exactOrdId (l.take 9) = true
  · rw [if_pos he] at h; exact absurd h (by simp)
  · simpa using he

theorem matchOrdAt_of_false (l : List Char) (h : exactOrdId (l.take 9) = false) :
    matchOrdAt l = none := by
  unfold matchOrdAt
  rw [if_neg (by simp [h])]

theorem searchOrdList_none (l : List Char)
    (h : ∀ i, matchOrdAt (l.drop i) = none) : searchOrdList l = none := by
  induction l with
  | nil => rfl
  | cons c rest ih =>
    have h0 : matchOrdAt (c :: rest) = none := h 0
    unfold searchOrdList
    rw [h0]
    exact ih (fun i => h (i + 1))

theorem searchOrdList_some (l m : List Char) (h : searchOrdList l = some m) :
    ∃ i, matchOrdAt (l.drop i) = some m ∧ ∀ j, j < i → matchOrdAt (l.drop j) = none := by
  induction l with
  | nil => exact absurd h (by simp [searchOrdList])
  | cons c rest ih =>
    unfold searchOrdList at h
    rcases hm : matchOrdAt (c :: rest) with _ | m0
    · rw [hm] at h
      rcases ih h with ⟨i, h1, h2⟩
      refine ⟨i + 1, h1, ?_⟩
      intro j hj
      cases j with
      | zero => exact hm
      | succ j0 => exact h2 j0 (Nat.lt_of_succ_lt_succ hj)
    · rw [hm] at h
      have : m0 = m := by simpa using h
      subst this
      exact ⟨0, hm, fun j hj => absurd hj (Nat.not_lt_zero j)⟩

/-! ### Helper lemmas: router -/

/-- Gated calls go to unclear handling, whatever the handlers are. -/
theorem route_gated (c : RouterResponse) (f : String → AgentResponse)
    (g : String → Option String → AgentResponse) (q sid : String) (st : SessionMap)
    (h : c.intent = Intent.unclear ∨ c.confidence < 7 / 10) :
    route (.ok c) f g q sid st = handleUnclear q c sid st := by
  simp only [route]
  rw [if_pos h]

/-- A first-time unclear call: counter read as 0. -/
theorem handleUnclear_first (q : String) (c : RouterResponse) (sid : String)
    (st : SessionMap) (h : (dictGet st sid).getD 0 = 0) :
    handleUnclear q c sid st =
      ({ query := q, intent := .unclear, confidence := c.confidence,
         response := clarifyMsg, escalated := false }, dictSet st sid 1) := by
  unfold handleUnclear
  rw [if_pos h]

/-- A repeat unclear call: counter read as a nonzero value. -/
theorem handleUnclear_repeat (q : String) (c : RouterResponse) (sid : String)
    (st : SessionMap) (h : (dictGet st sid).getD 0 ≠ 0) :
    handleUnclear q c sid st = (escalate q, st) := by
  unfold handleUnclear
  rw [if_neg h]

/-- The session map after any route call is either unchanged or has the
session counter set to 1. -/
theorem route_snd_cases (cr : Except Unit RouterResponse)
    (f : String → AgentResponse) (g : String → Option String → AgentResponse)
    (q sid : String) (st : SessionMap) :
    (route cr f g q sid st).2 = st ∨ (route cr f g q sid st).2 = dictSet st sid 1 := by
  rcases cr with e | c
  · left; rfl
  · by_cases h1 : c.intent = Intent.unclear ∨ c.confidence < 7 / 10
    · rw [route_gated c f g q sid st h1]
      by_cases h2 : (dictGet st sid).getD 0 = 0
      · rw [handleUnclear_first q c sid st h2]; right; rfl
      · rw [handleUnclear_repeat q c sid st h2]; left; rfl
    · simp only [route]
      rw [if_neg h1]
      by_cases h2 : c.intent = Intent.faq
      · rw [if_pos h2]; left; rfl
      · rw [if_neg h2]
        by_cases h3 : c.intent = Intent.order_status
        · rw [if_pos h3]; left; rfl
        · rw [if_neg h3]; left; rfl

/-- The invariant of the session map: every stored counter equals 1. -/
def countersAllOne (st : SessionMap) : Prop := ∀ p ∈ st, p.2 = 1

theorem countersAllOne_step (st : SessionMap) (ev : RouterEvent)
    (h : countersAllOne st) : countersAllOne (stepEvent st ev) := by
  cases ev with
  | routeEv cr f g q sid =>
    show countersAllOne (route cr f g q sid st).2
    rcases route_snd_cases cr f g q sid st with he | he <;> rw [he]
    · exact h
    · intro p hp
      rcases mem_dictSet_cases st sid 1 p hp with h1 | h1
      · rw [h1]
      · exact h p h1
  | resetEv sid =>
    intro p hp
    exact h p (List.mem_of_mem_filter hp)

theorem countersAllOne_run (evs : List RouterEvent) :
    countersAllOne (runEvents evs) := by
  unfold runEvents
  have hgen : ∀ st, countersAllOne st → countersAllOne (evs.foldl stepEvent st) := by
    induction evs with
    | nil => intro st h; exact h
    | cons e rest ih =>
      intro st h
      exact ih (stepEvent st e) (countersAllOne_step st e h)
  exact hgen [] (by intro p hp; exact absurd hp (List.not_mem_nil p))

/-! ### Claims -/

/-- C1: for every successfully classified query, if the returned intent is
UNCLEAR or the confidence is strictly below 0.7, route goes to unclear
handling and its result does not depend on either handler (so neither the
FAQ handler nor the Order Status handler is invoked); dispatch to a handler
happens only in the non-gated case, exactly for the FAQ and ORDER_STATUS
intents, invoking the matching handler. -/
theorem C1_confidence_gating (c : RouterResponse) (f f1 : String → AgentResponse)
    (g g1 : String → Option String → AgentResponse) (q sid : String) (st : SessionMap) :
    ((c.intent = Intent.unclear ∨ c.confidence < 7 / 10) →
        route (.ok c) f g q sid st = handleUnclear q c sid st ∧
        route (.ok c) f g q sid st = route (.ok c) f1 g1 q sid st) ∧
    (¬ (c.intent = Intent.unclear ∨ c.confidence < 7 / 10) →
        (c.intent = Intent.faq →
            route (.ok c) f g q sid st = (handleAgentResponse q c (f q), st)) ∧
        (c.intent = Intent.order_status →
            route (.ok c) f g q sid st =
              (handleAgentResponse q c (g q (dictGet c.entities "order_id")), st))) := by
  constructor
  · intro h
    refine ⟨route_gated c f g q sid st h, ?_⟩
    rw [route_gated c f g q sid st h, route_gated c f1 g1 q sid st h]
  · intro h
    constructor
    · intro hf
      simp only [route]
      rw [if_neg h, if_pos hf]
    · intro ho
      have hnf : ¬ c.intent = Intent.faq := by
        rw [ho]; intro hc; exact Intent.noConfusion hc
      simp only [route]
      rw [if_neg h, if_neg hnf, if_pos ho]

/-- Witness for C1: a concrete UNCLEAR classification is routed to unclear
handling. -/
theorem C1_confidence_gating_witness :
    route (Except.ok ⟨Intent.unclear, 1, [], "vague"⟩)
        (fun _ => { success := true, message := "a" })
        (fun _ _ => { success := true, message := "b" }) "hi" "s" [] =
      handleUnclear "hi" ⟨Intent.unclear, 1, [], "vague"⟩ "s" [] :=
  ((C1_confidence_gating ⟨Intent.unclear, 1, [], "vague"⟩
      (fun _ => { success := true, message := "a" })
      (fun _ => { success := true, message := "a" })
      (fun _ _ => { success := true, message := "b" })
      (fun _ _ => { success := true, message := "b" })
      "hi" "s" []).1 (Or.inl rfl)).1

/-- C2: an unclear-handled call with counter absent or 0 sets the counter to
1 and returns the clarification FinalResponse with intent UNCLEAR, the
classifier confidence unchanged and escalated false; with counter at least 1
it returns the escalation FinalResponse and leaves the map unchanged. -/
theorem C2_unclear_two_strikes (q : String) (c : RouterResponse) (sid : String)
    (st : SessionMap) :
    ((dictGet st sid = none ∨ dictGet st sid = some 0) →
        handleUnclear q c sid st =
          ({ query := q, intent := .unclear, confidence := c.confidence,
             response := clarifyMsg, escalated := false }, dictSet st sid 1) ∧
        dictGet (dictSet st sid 1) sid = some 1) ∧
    (∀ n, 1 ≤ n → dictGet st sid = some n →
        handleUnclear q c sid st = (escalate q, st) ∧
        (escalate q).escalated = true) := by
  constructor
  · intro h
    have hc : (dictGet st sid).getD 0 = 0 := by
      rcases h with h | h <;> rw [h] <;> rfl
    exact ⟨handleUnclear_first q c sid st hc, dictGet_dictSet_self st sid 1⟩
  · intro n hn h
    have hc : (dictGet st sid).getD 0 ≠ 0 := by
      rw [h]
      simpa using (by omega : ¬ n = 0)
    exact ⟨handleUnclear_repeat q c sid st hc, rfl⟩

/-- Witness for C2: first unclear call on an empty map clarifies and writes
counter 1; the next one escalates and keeps the map. -/
theorem C2_unclear_two_strikes_witness :
    (handleUnclear "q" ⟨Intent.unclear, 1 / 2, [], "r"⟩ "s" [] =
        ({ query := "q", intent := .unclear, confidence := (1 : ℚ) / 2,
           response := clarifyMsg, escalated := false }, dictSet [] "s" 1) ∧
      dictGet (dictSet ([] : SessionMap) "s" 1) "s" = some 1) ∧
    (handleUnclear "q" ⟨Intent.unclear, 1 / 2, [], "r"⟩ "s" [("s", 1)] =
        (escalate "q", [("s", 1)]) ∧
      (escalate "q").escalated = true) :=
  ⟨(C2_unclear_two_strikes "q" ⟨Intent.unclear, 1 / 2, [], "r"⟩ "s" []).1 (Or.inl rfl),
   (C2_unclear_two_strikes "q" ⟨Intent.unclear, 1 / 2, [], "r"⟩ "s" [("s", 1)]).2 1
     (le_refl 1) (by decide)⟩

/-- C5: when the classification call fails, route returns the fixed
escalation FinalResponse (intent UNCLEAR, confidence 0, the fixed message
with email and phone contact, escalated true) and the session escalation
map is neither modified nor read: the state comes back unchanged and the
response is the same for any two states. -/
theorem C5_classification_failure (e : Unit) (f : String → AgentResponse)
    (g : String → Option String → AgentResponse) (q sid : String)
    (st st1 : SessionMap) :
    route (.error e) f g q sid st = (escalate q, st) ∧
    (route (.error e) f g q sid st).1 = (route (.error e) f g q sid st1).1 ∧
    escalate q = { query := q, intent := .unclear, confidence := 0,
                   response := escalateMsg, escalated := true } ∧
    strContains escalateMsg "support@store.com" = true ∧
    strContains escalateMsg "1-800-SHOP-NOW" = true :=
  ⟨rfl, rfl, rfl, by decide, by decide⟩

/-- C7: reset_session removes the session counter entry when present, is a
no-op when absent, is idempotent, and an unclear-handled call right after it
behaves as a first occurrence: clarification with escalated false, not
escalation. -/
theorem C7_reset_session (st : SessionMap) (sid q : String) (c : RouterResponse) :
    dictGet (resetSession st sid) sid = none ∧
    resetSession (resetSession st sid) sid = resetSession st sid ∧
    (dictGet st sid = none → resetSession st sid = st) ∧
    handleUnclear q c sid (resetSession st sid) =
      ({ query := q, intent := .unclear, confidence := c.confidence,
         response := clarifyMsg, escalated := false },
       dictSet (resetSession st sid) sid 1) ∧
    (handleUnclear q c sid (resetSession st sid)).1.escalated = false := by
  unfold resetSession
  have hget : dictGet (dictErase st sid) sid = none := dictGet_dictErase_self st sid
  have hfirst := handleUnclear_first q c sid (dictErase st sid)
    (by rw [hget]; rfl)
  refine ⟨hget, dictErase_idem st sid, dictErase_of_get_none st sid, hfirst, ?_⟩
  rw [hfirst]

/-- Witness for C7: resetting an absent session is a no-op. -/
theorem C7_reset_session_witness :
    resetSession ([] : SessionMap) "s" = [] :=
  (C7_reset_session [] "s" "q" ⟨Intent.unclear, 0, [], ""⟩).2.2.1 rfl

/-- C10: in every router state reachable by any sequence of route and
reset_session calls from the empty session map, every stored counter value
is exactly 1. -/
theorem C10_counter_always_one (evs : List RouterEvent) (sid : String) (n : Nat)
    (h : dictGet (runEvents evs) sid = some n) : n = 1 := by
  unfold dictGet at h
  rcases hf : (runEvents evs).find? (fun p => p.1 == sid) with _ | p
  · rw [hf] at h
    exact absurd h (by simp)
  · rw [hf] at h
    have hv : p.2 = n := by simpa using h
    rw [← hv]
    exact countersAllOne_run evs p (List.mem_of_find?_eq_some hf)

/-- Witness for C10: after one unclear route call the stored counter is 1. -/
theorem C10_counter_always_one_witness :
    dictGet (runEvents [RouterEvent.routeEv (Except.ok ⟨Intent.unclear, 0, [], ""⟩)
        (fun _ => { success := true, message := "" })
        (fun _ _ => { success := true, message := "" }) "hi" "s"]) "s" = some 1 ∧
      (1 : Nat) = 1 :=
  ⟨by decide,
   C10_counter_always_one [RouterEvent.routeEv (Except.ok ⟨Intent.unclear, 0, [], ""⟩)
       (fun _ => { success := true, message := "" })
       (fun _ _ => { success := true, message := "" }) "hi" "s"] "s" 1 (by decide)⟩

/-- C3 (divergence evaluation): on a knowledge base where the best-scoring
topic is not the last one iterated, handle returns the matched topic answer,
yet the data topic label names the last topic of the base, not the matched
one: the loop variable leaks into the data payload. -/
theorem C3_topic_label_divergence :
    faqHandle [("hours", ⟨["hours"], "We are open 9-5."⟩),
               ("returns", ⟨["returns"], "30-day returns."⟩)] none
        "What are your hours" =
      { success := true, message := "We are open 9-5.",
        data := some (.topic "returns") } ∧
    (faqLoop (strLower "What are your hours")
        [("hours", ⟨["hours"], "We are open 9-5."⟩),
         ("returns", ⟨["returns"], "30-day returns."⟩)]
        ⟨none, 0, ""⟩).best_match =
      some ⟨["hours"], "We are open 9-5."⟩ :=
  ⟨by decide, by decide⟩

/-- C4: extraction accepts exactly ORD- followed by five digits on the
upper-cased query: every extracted id has that exact shape and is the
nine-character window at the first matching position; when no position of
the upper-cased query matches the exact shape, extraction yields none. -/
theorem C4_order_id_extraction (q : String) :
    (∀ r, extractOrderId q = some r →
        (∃ ds : List Char, r.data = 'O' :: 'R' :: 'D' :: '-' :: ds ∧
            ds.length = 5 ∧ ds.all (fun c => c.isDigit) = true) ∧
        ∃ i, r.data = ((strUpper q).data.drop i).take 9 ∧
          ∀ j, j < i → exactOrdId (((strUpper q).data.drop j).take 9) = false) ∧
    ((∀ i, i < (strUpper q).data.length →
        exactOrdId (((strUpper q).data.drop i).take 9) = false) →
      extractOrderId q = none) := by
  constructor
  · intro r hr
    unfold extractOrderId at hr
    rcases hs : searchOrdList (strUpper q).data with _ | l
    · rw [hs] at hr
      exact absurd hr (by simp)
    · rw [hs] at hr
      have hrl : r = String.mk l := by
        have := hr
        simp only [Option.map_some] at this
        exact (Option.some.injEq _ _ ▸ this).symm
      rcases searchOrdList_some _ l hs with ⟨i, hm, hnone⟩
      rcases matchOrdAt_some _ l hm with ⟨hex, hl⟩
      constructor
      · have hexl : exactOrdId l = true := by rw [hl]; exact hex
        rcases exactOrdId_shape l hexl with ⟨ds, hds, h5, hdig⟩
        exact ⟨ds, by rw [hrl, strMk_data, hds], h5, hdig⟩
      · refine ⟨i, by rw [hrl, strMk_data, hl], ?_⟩
        intro j hj
        exact matchOrdAt_none _ (hnone j hj)
  · intro h
    have hall : ∀ i, matchOrdAt ((strUpper q).data.drop i) = none := by
      intro i
      by_cases hi : i < (strUpper q).data.length
      · exact matchOrdAt_of_false _ (h i hi)
      · have hnil : (strUpper q).data.drop i = [] :=
          List.drop_eq_nil_of_le (Nat.le_of_not_lt hi)
        rw [hnil]
        rfl
    unfold extractOrderId
    rw [searchOrdList_none _ hall]
    rfl

/-- Witness for C4: a lower-case id is extracted in canonical form and a
three-digit near-match yields none. -/
theorem C4_order_id_extraction_witness :
    ((∃ ds : List Char, (String.data "ORD-12345") = 'O' :: 'R' :: 'D' :: '-' :: ds ∧
        ds.length = 5 ∧ ds.all (fun c => c.isDigit) = true) ∧
      ∃ i, (String.data "ORD-12345") = ((strUpper "call ord-12345").data.drop i).take 9 ∧
        ∀ j, j < i →
          exactOrdId (((strUpper "call ord-12345").data.drop j).take 9) = false) ∧
    extractOrderId "ORD-123 only" = none :=
  ⟨(C4_order_id_extraction "call ord-12345").1 "ORD-12345" (by decide),
   (C4_order_id_extraction "ORD-123 only").2 (by decide)⟩

/-! ### Helper lemmas: best-effort rewrite -/

theorem faqRefine_fail (gen : GenFn) (q a : String)
    (h : ∀ p s, gen p s = Except.error ()) : faqRefine gen q a = a := by
  unfold faqRefine
  rw [h]

theorem orderRefine_fail (gen : GenFn) (q m : String)
    (h : ∀ p s, gen p s = Except.error ()) : orderRefine gen q m = m := by
  unfold orderRefine
  rw [h]

theorem faqHandle_rewrite_fail (kb : List (String × FAQContent)) (gen : GenFn)
    (q : String) (h : ∀ p s, gen p s = Except.error ()) :
    faqHandle kb (some gen) q = faqHandle kb none q := by
  simp only [faqHandle]
  cases hb : (faqLoop (strLower q) kb ⟨none, 0, ""⟩).best_match with
  | none => simp [hb]
  | some content => simp [hb, faqRefine_fail gen q content.answer h]

theorem faqHandle_llm_fields (kb : List (String × FAQContent)) (gen : GenFn)
    (q : String) :
    (faqHandle kb (some gen) q).success = (faqHandle kb none q).success ∧
    (faqHandle kb (some gen) q).data = (faqHandle kb none q).data ∧
    (faqHandle kb (some gen) q).needs_clarification =
      (faqHandle kb none q).needs_clarification := by
  simp only [faqHandle]
  cases hb : (faqLoop (strLower q) kb ⟨none, 0, ""⟩).best_match with
  | none => simp [hb]
  | some content => simp [hb]

theorem orderHandle_rewrite_fail (orders : List (String × OrderRecord)) (gen : GenFn)
    (q : String) (hint : Option String) (h : ∀ p s, gen p s = Except.error ()) :
    orderHandle orders (some gen) q hint = orderHandle orders none q hint := by
  simp only [orderHandle]
  by_cases ht : pyTruthyStr (if pyTruthyStr hint then hint else extractOrderId q) = true
  · rw [if_pos ht, if_pos ht]
    cases hg : dictGet orders ((if pyTruthyStr hint then hint else extractOrderId q).getD "") with
    | none => rfl
    | some order =>
      simp [hg, orderRefine_fail gen q (formatOrder order) h]
  · rw [if_neg ht, if_neg ht]

theorem orderHandle_llm_fields (orders : List (String × OrderRecord)) (gen : GenFn)
    (q : String) (hint : Option String) :
    (orderHandle orders (some gen) q hint).success =
      (orderHandle orders none q hint).success ∧
    (orderHandle orders (some gen) q hint).data =
      (orderHandle orders none q hint).data ∧
    (orderHandle orders (some gen) q hint).needs_clarification =
      (orderHandle orders none q hint).needs_clarification := by
  simp only [orderHandle]
  by_cases ht : pyTruthyStr (if pyTruthyStr hint then hint else extractOrderId q) = true
  · rw [if_pos ht, if_pos ht]
    cases hg : dictGet orders ((if pyTruthyStr hint then hint else extractOrderId q).getD "") with
    | none => simp [hg]
    | some order => simp [hg]
  · rw [if_neg ht, if_neg ht]
    exact ⟨rfl, rfl, rfl⟩

/-- C6: a failing rewrite call leaves each handler returning exactly the
outcome built from the unrewritten factual message, and for any rewrite
behavior at all the success, data and needs_clarification fields of both
handlers equal those of the rewrite-free handler. -/
theorem C6_rewrite_fallback (kb : List (String × FAQContent))
    (orders : List (String × OrderRecord)) (gen gen1 : GenFn) (q : String)
    (hint : Option String) (hfail : ∀ p s, gen p s = Except.error ()) :
    faqHandle kb (some gen) q = faqHandle kb none q ∧
    orderHandle orders (some gen) q hint = orderHandle orders none q hint ∧
    (faqHandle kb (some gen1) q).success = (faqHandle kb none q).success ∧
    (faqHandle kb (some gen1) q).data = (faqHandle kb none q).data ∧
    (faqHandle kb (some gen1) q).needs_clarification =
      (faqHandle kb none q).needs_clarification ∧
    (orderHandle orders (some gen1) q hint).success =
      (orderHandle orders none q hint).success ∧
    (orderHandle orders (some gen1) q hint).data =
      (orderHandle orders none q hint).data ∧
    (orderHandle orders (some gen1) q hint).needs_clarification =
      (orderHandle orders none q hint).needs_clarification :=
  ⟨faqHandle_rewrite_fail kb gen q hfail,
   orderHandle_rewrite_fail orders gen q hint hfail,
   (faqHandle_llm_fields kb gen1 q).1,
   (faqHandle_llm_fields kb gen1 q).2.1,
   (faqHandle_llm_fields kb gen1 q).2.2,
   (orderHandle_llm_fields orders gen1 q hint).1,
   (orderHandle_llm_fields orders gen1 q hint).2.1,
   (orderHandle_llm_fields orders gen1 q hint).2.2⟩

/-- Witness for C6: with an always-failing rewrite capability the FAQ
handler returns exactly the rewrite-free outcome. -/
theorem C6_rewrite_fallback_witness :
    faqHandle [("hours", ⟨["hours"], "We are open 9-5."⟩)]
        (some (fun _ _ => Except.error ())) "hours" =
      faqHandle [("hours", ⟨["hours"], "We are open 9-5."⟩)] none "hours" :=
  (C6_rewrite_fallback [("hours", ⟨["hours"], "We are open 9-5."⟩)] []
    (fun _ _ => Except.error ()) (fun _ _ => Except.ok "hello") "hours" none
    (fun _ _ => rfl)).1

/-! ### Helper lemmas: message formatting -/

theorem strAppend_assoc (a b c : String) : a ++ b ++ c = a ++ (b ++ c) := by
  cases a with
  | mk la =>
    cases b with
    | mk lb =>
      cases c with
      | mk lc =>
        show String.mk (la ++ lb ++ lc) = String.mk (la ++ (lb ++ lc))
        rw [List.append_assoc]

theorem strAppend_empty (a : String) : a ++ "" = a := by
  cases a with
  | mk la =>
    show String.mk (la ++ []) = String.mk la
    rw [List.append_nil]

/-- The item-name join as the spec words it: names of structured item
records, plain strings directly, the fixed fallback for an empty or absent
item list. -/
def specJoinedItemNames : Option Items → String
  | none => "your items"
  | some (Items.recs []) => "your items"
  | some (Items.strs []) => "your items"
  | some (Items.recs (x :: xs)) =>
      String.intercalate ", " ((x :: xs).map (fun it => it.name.getD ""))
  | some (Items.strs (x :: xs)) => String.intercalate ", " (x :: xs)

/-- The status message as the spec words it: the base sentence, then the
tracking clause exactly when a tracking value is present (a nonempty stored
string: the truthiness test the record accessor uses), then the delivery
clause exactly when a delivery date is present. -/
def specOrderStatusMessage (o : OrderRecord) : String :=
  "Order " ++ o.order_id ++ " (" ++ specJoinedItemNames o.items ++ ") is " ++
    o.status ++ "." ++
  (match o.tracking with
   | some t => if t = "" then "" else " Tracking: " ++ t ++ "."
   | none => "") ++
  (match o.delivery_date with
   | some d => if d = "" then "" else " Expected delivery: " ++ d ++ "."
   | none => "")

theorem orderItemsStr_eq_spec (items : Option Items) :
    orderItemsStr items = specJoinedItemNames items := by
  rcases items with _ | its
  · rfl
  · rcases its with l | l
    · rcases l with _ | ⟨x, xs⟩
      · rfl
      · simp [orderItemsStr, specJoinedItemNames]
    · rcases l with _ | ⟨x, xs⟩
      · rfl
      · simp [orderItemsStr, specJoinedItemNames]

theorem appendOpt_eq (base : String) (x : Option String) (pre : String) :
    (if pyTruthyStr x then base ++ pre ++ x.getD "" ++ "." else base) =
      base ++
        (match x with
         | some t => if t = "" then "" else pre ++ t ++ "."
         | none => "") := by
  rcases x with _ | t
  · simp [pyTruthyStr, strAppend_empty]
  · by_cases ht : t = ""
    · simp [pyTruthyStr, ht, strAppend_empty]
    · have htr : pyTruthyStr (some t) = true := by simp [pyTruthyStr, ht]
      rw [if_pos htr]
      show base ++ pre ++ t ++ "." = base ++ (if t = "" then "" else pre ++ t ++ ".")
      rw [if_neg ht]
      simp only [strAppend_assoc]

/-- C8: for every order record, the formatted status message is exactly the
message the spec describes: base sentence with the comma-joined item names
(or the fixed fallback), the tracking clause exactly when a tracking value
is present, the delivery clause exactly when a delivery date is present. -/
theorem C8_format_order (o : OrderRecord) : formatOrder o = specOrderStatusMessage o := by
  rcases o with ⟨oid, status, items, tracking, delivery⟩
  simp only [formatOrder, specOrderStatusMessage]
  rw [orderItemsStr_eq_spec]
  rw [appendOpt_eq, appendOpt_eq]

/-- C9: for every valid-format order id, obtained from the hint or extracted
from the query, that is absent from the order records, handle returns the
not-found outcome: success false, needs_clarification false, no data, and a
message that names the id and includes the support contact. -/
theorem C9_unknown_order_id (orders : List (String × OrderRecord))
    (llm : Option GenFn) (q : String) (hint : Option String) (id : String)
    (hid : (if pyTruthyStr hint then hint else extractOrderId q) = some id)
    (hfmt : exactOrdId id.data = true)
    (habs : dictGet orders id = none) :
    orderHandle orders llm q hint =
      { success := false, message := orderNotFoundMsg id, data := none,
        needs_clarification := false } ∧
    strContains (orderNotFoundMsg id) id = true ∧
    strContains (orderNotFoundMsg id) "support@store.com" = true := by
  have hne : ¬ id = "" := by
    intro he
    rw [he] at hfmt
    exact absurd hfmt (by decide)
  have htr : pyTruthyStr (some id) = true := by simp [pyTruthyStr, hne]
  refine ⟨?_, ?_, ?_⟩
  · simp only [orderHandle, hid, htr, if_true, Option.getD_some]
    rw [habs]
  · unfold orderNotFoundMsg strContains
    rw [strAppend_data, strAppend_data, List.append_assoc]
    exact listOccurs_append_left _ _ _ (listOccurs_of_leading id.data _)
  · unfold orderNotFoundMsg strContains
    rw [strAppend_data, strAppend_data, List.append_assoc]
    exact listOccurs_append_left _ _ _ (listOccurs_append_left _ _ _ (by decide))

/-- Witness for C9: the id ORD-99999 supplied as hint and absent from an
empty record set yields the not-found outcome. -/
theorem C9_unknown_order_id_witness :
    orderHandle [] none "where is my stuff" (some "ORD-99999") =
      { success := false, message := orderNotFoundMsg "ORD-99999", data := none,
        needs_clarification := false } ∧
    strContains (orderNotFoundMsg "ORD-99999") "ORD-99999" = true ∧
    strContains (orderNotFoundMsg "ORD-99999") "support@store.com" = true :=
  C9_unknown_order_id [] none "where is my stuff" (some "ORD-99999") "ORD-99999"
    (by decide) (by decide) rfl
